import Mathlib

/-!
Verification of UI component behaviors from the authentik web elements:
`ModalForm` (modal-backed form submission sequencing), `AKTimestamp`
(timestamp display with debounced interval refresh), the
`intersectionObserver` decorator, `ModelForm` (model-bound form refresh
and error display), and `themeImage` (theme-aware image path resolution).

The TypeScript sources are shallowly embedded: each event-driven method
becomes a pure Lean function from its inputs (branch outcomes of the
browser/API calls it makes) to a trace of primitive actions and/or a
resulting component state.
-/

/-! ## ModalForm (`ak-forms-modal`): the `#confirm` operation

`ModalForm.#confirm` finds the slotted `Form`, validates it via
`reportValidity()`, and if valid sets `loading`/`locked`, calls
`form.submit(...)`, and on settlement optionally closes the modal,
resets the form and dispatches `EVENT_REFRESH` before clearing the
flags; a rejection clears the flags and rethrows. -/

/-- A primitive observable action performed during `ModalForm.#confirm`. -/
inductive ConfirmAction where
  /-- Searching the default slot for a `Form` element. -/
  | findForm
  /-- `form.reportValidity()` returned `result`. -/
  | reportValidity (result : Bool)
  /-- Assignment `this.loading = b`. -/
  | setLoading (b : Bool)
  /-- Assignment `this.locked = b`. -/
  | setLocked (b : Bool)
  /-- The call `form.submit(new SubmitEvent("submit", ...))`. -/
  | callSubmit
  /-- The submit promise settled: `resolved = true` for fulfillment,
  `false` for rejection. -/
  | submitSettled (resolved : Bool)
  /-- Assignment `this.open = b` (closing or showing the dialog). -/
  | setOpen (b : Bool)
  /-- The call `form.reset()`. -/
  | resetForm
  /-- Dispatch of the `EVENT_REFRESH` custom event with the given
  `bubbles` and `composed` options. -/
  | dispatchRefreshEvent (bubbles : Bool) (composed : Bool)
  /-- `throw new Error("No form found within the default slot")`. -/
  | throwNoFormError
  /-- The rejection handler rethrows the submission error. -/
  | rethrowError
deriving DecidableEq, Repr

/-- The branch outcomes of the external calls made by one invocation of
`ModalForm.#confirm`: whether a `Form` is found in the default slot, what
`reportValidity()` returns, whether the submit promise fulfills, and the
value of the `closeAfterSuccessfulSubmit` property. -/
structure ConfirmInput where
  formFound : Bool
  reportValidityResult : Bool
  submitResolves : Bool
  closeAfterSuccessfulSubmit : Bool
deriving DecidableEq, Repr

/-- The ordered trace of actions performed by `ModalForm.#confirm`,
transcribed from `src/unnamed/part_001` lines 32-80. -/
def confirmTrace (i : ConfirmInput) : List ConfirmAction :=
  if i.formFound = false then
    [.findForm, .throwNoFormError]
  else if i.reportValidityResult = false then
    [.findForm, .reportValidity false, .setLoading false, .setLocked false]
  else
    [.findForm, .reportValidity true, .setLoading true, .setLocked true,
      .callSubmit] ++
      if i.submitResolves then
        .submitSettled true ::
          ((if i.closeAfterSuccessfulSubmit then
              [.setOpen false, .resetForm, .dispatchRefreshEvent true true]
            else []) ++ [.setLoading false, .setLocked false])
      else
        [.submitSettled false, .setLoading false, .setLocked false,
          .rethrowError]

/-- The mutable state of a `ModalForm` touched by `#confirm`: the
`loading` and `locked` reactive properties and whether the native dialog
is open (the `open` accessor). -/
structure ModalFormState where
  loading : Bool
  locked : Bool
  dialogOpen : Bool
deriving DecidableEq, Repr

/-- Effect of a single `ConfirmAction` on the `ModalForm` state. -/
def applyConfirmAction (s : ModalFormState) : ConfirmAction → ModalFormState
  | .setLoading b => { s with loading := b }
  | .setLocked b => { s with locked := b }
  | .setOpen b => { s with dialogOpen := b }
  | _ => s

/-- The state of the `ModalForm` after `#confirm` returns. -/
def runConfirm (i : ConfirmInput) (s : ModalFormState) : ModalFormState :=
  (confirmTrace i).foldl applyConfirmAction s

/-- `a` occurs in `l` and its first occurrence is strictly before the
first occurrence of `b`. -/
def precedes (a b : ConfirmAction) (l : List ConfirmAction) : Prop :=
  a ∈ l ∧ b ∈ l ∧ l.indexOf a < l.indexOf b

instance (a b : ConfirmAction) (l : List ConfirmAction) :
    Decidable (precedes a b l) := by
  unfold precedes; infer_instance

/-! ## AKTimestamp (`ak-timestamp`): interval refresh and rendering

`AKTimestamp.startInterval` first calls `stopInterval()` (clearing any
existing interval), returns without installing an interval when the
timestamp is `null`, `refresh` is `false`, the document is not visible
or the element is not visible, and otherwise installs a 1000 ms interval
when `Date.now()` is within 60000 ms of the timestamp's time and a
`1000 * 60` ms interval otherwise. The `timestamp` setter stores `null`
for any falsy assigned value, and `render` shows a `-` placeholder when
the stored timestamp is `null` or its time is `0`. -/

/-- The fields of an `AKTimestamp` element read by `startInterval`. The
stored `#timestamp` (a `Date | null`) is modelled by its `getTime()`
value in milliseconds, `none` standing for `null`;
`docVisibilityVisible` models `document.visibilityState === "visible"`
and `elementVisible` the intersection-observed `visible` property. -/
structure TimestampElement where
  timestamp : Option Int
  refresh : Bool
  docVisibilityVisible : Bool
  elementVisible : Bool
deriving DecidableEq, Repr

/-- A timer action performed by `startInterval`. -/
inductive TimerAction where
  /-- `clearInterval(this.#interval)` via `stopInterval()`. -/
  | clearInterval
  /-- `self.setInterval(..., ms)`. -/
  | setIntervalMs (ms : Nat)
deriving DecidableEq, Repr

/-- The ordered trace of timer actions performed by one call to
`AKTimestamp.startInterval`, transcribed from `src/unnamed/part_000`
lines 69-107; `now` is the value of `Date.now()`. -/
def startInterval (el : TimestampElement) (now : Int) : List TimerAction :=
  TimerAction.clearInterval ::
    (if el.timestamp = none ∨ el.refresh = false ∨
        el.docVisibilityVisible = false ∨ el.elementVisible = false then
      []
    else
      match el.timestamp with
      | none => []
      | some moment =>
        if moment - 60000 ≤ now ∧ now ≤ moment + 60000 then
          [TimerAction.setIntervalMs 1000]
        else
          [TimerAction.setIntervalMs (1000 * 60)])

/-- A value assigned to the `timestamp` setter: `null` (or `undefined`),
a string, a number of milliseconds, or a `Date` (modelled by its
`getTime()` value). -/
inductive TimestampAssign where
  | nullValue
  | strValue (s : String)
  | numValue (n : Int)
  | dateValue (ms : Int)
deriving DecidableEq, Repr

/-- The `timestamp` setter (`src/unnamed/part_000` lines 27-29): a falsy
value (`null`, `0`, the empty string) stores `null`; a `Date` is stored
as-is; any other value is passed through the `Date` constructor, whose
string parsing is modelled by the ambient `parse` function. -/
def setTimestamp (parse : String → Int) : TimestampAssign → Option Int
  | .nullValue => none
  | .strValue s => if s = "" then none else some (parse s)
  | .numValue n => if n = 0 then none else some n
  | .dateValue ms => some ms

/-- The shape of `AKTimestamp.render`'s output. -/
inductive TimestampView where
  /-- `<span role="time" aria-label="None">-</span>`. -/
  | placeholder (ariaLabel : String) (text : String)
  /-- The `<time>` element for timestamp `ms`, with the elapsed block
  when `showElapsed` and the locale datetime when `showDatetime`. -/
  | timeView (ms : Int) (showElapsed : Bool) (showDatetime : Bool)
deriving DecidableEq, Repr

/-- `AKTimestamp.render` (`src/unnamed/part_000` lines 109-131) on the
stored timestamp and the `elapsed`/`datetime` flags. -/
def renderTimestamp (ts : Option Int) (elapsed datetime : Bool) :
    TimestampView :=
  match ts with
  | none => .placeholder "None" "-"
  | some t =>
    if t = 0 then .placeholder "None" "-" else .timeView t elapsed datetime

/-! ## The `intersectionObserver` decorator

From `src/web/src/elements/forms/ModelForm.ts` lines 95-199: the
decorator overrides `connectedCallback` to initialize the decorated
property to `false` and install an `IntersectionObserver` whose callback
compares each entry's `isIntersecting` against the property's current
value; only on a change does it rewrite the property, invoke the
`onIntersection` option (when provided) and request an update. -/

/-- An element carrying a property decorated with
`@intersectionObserver()`; `value` is the decorated boolean property. -/
structure DecoratedElement where
  value : Bool
deriving DecidableEq, Repr

/-- The decorator's `connectedCallback` override sets the decorated
property (both the private symbol and the public key) to `false`. -/
def connectedCallbackInit (_e : DecoratedElement) : DecoratedElement :=
  ⟨false⟩

/-- The observable outcome of processing one `IntersectionObserver`
entry in the decorator's callback. -/
structure IntersectionCallbackResult where
  /-- The decorated property's value after the entry is processed. -/
  value : Bool
  /-- Whether the property was written. -/
  wroteProperty : Bool
  /-- Whether request custom `onIntersection` option was invoked. -/
  invokedOnIntersection : Bool
  /-- Whether `this.requestUpdate(key, currentValue)` was called. -/
  requestedUpdate : Bool
  /-- Whether the observer disconnected (the `once` option). -/
  disconnected : Bool
deriving DecidableEq, Repr

/-- Processing of a single entry by the decorator's observer callback
(`ModelForm.ts` lines 127-152): `hasOnIntersection` records whether an
`onIntersection` option was provided, `once` the `once` option,
`current` the property's current value and `isIntersecting` the entry's
reported value. -/
def intersectionCallbackStep (hasOnIntersection once : Bool)
    (current isIntersecting : Bool) : IntersectionCallbackResult :=
  if current ≠ isIntersecting then
    { value := isIntersecting
      wroteProperty := true
      invokedOnIntersection := hasOnIntersection
      requestedUpdate := true
      disconnected := once && isIntersecting }
  else
    { value := current
      wroteProperty := false
      invokedOnIntersection := false
      requestedUpdate := false
      disconnected := once && isIntersecting }

/-! ## ModelForm: instance refresh, error display, visibility getters -/

/-- Modelled from the spec: `parseAPIResponseError` (imported from
`#common/errors/network`, which is not among the sources) parses a
rejected API response into an error object that is then surfaced as UI
text; modelled as wrapping the raw rejection value. -/
structure APIError where
  detail : String
deriving DecidableEq, Repr

/-- Modelled from the spec: the parsing step of a rejected API
response (`#common/errors/network`, not among the sources). -/
def parseAPIResponseError (raw : String) : APIError := ⟨raw⟩

/-- Modelled from the spec: `pluckErrorDetail` (from
`#common/errors/network`, not among the sources) extracts the
human-readable detail of a parsed API error for display. -/
def pluckErrorDetail (e : APIError) : String := e.detail

/-- A primary-key value of `ModelForm`'s `instancePk` property, whose
TypeScript type `PKT` extends `string | number`; the property itself is
`PKT | null`, modelled as `Option PKValue` with `none` for `null` (or
`undefined`). -/
inductive PKValue where
  | strPk (s : String)
  | numPk (n : Int)
deriving DecidableEq, Repr

/-- The guard `!this.instancePk && typeof this.instancePk !== "number"`
of `ModelForm.#refresh`: `true` for `null`/`undefined` and for the empty
string (the only falsy string); every number, including `0`, makes the
`typeof` conjunct false. -/
def pkAbsent : Option PKValue → Bool
  | none => true
  | some (.strPk s) => s == ""
  | some (.numPk _) => false

/-- The `ModelForm` state touched by `#refresh`: the `instancePk` and
`instance` properties (`instance` is a Lean keyword, hence
`instanceVal`), the `error` state and the `loading` state. Instance
values are modelled as `Int`. -/
structure ModelFormData where
  instancePk : Option PKValue
  instanceVal : Option Int
  error : Option APIError
  loading : Bool
deriving DecidableEq, Repr

/-- The result of one run of `ModelForm.#refresh`: the final state plus
whether `this.load?.()` was actually invoked, whether
`this.loadInstance(...)` was invoked, and whether the `finally` block's
`requestUpdate()` ran. -/
structure RefreshOutcome where
  state : ModelFormData
  calledLoad : Bool
  calledLoadInstance : Bool
  requestedUpdate : Bool
deriving DecidableEq, Repr

/-- `ModelForm.#refresh` (`ModelForm.ts` lines 283-310) as a function of
the branch outcomes of the promises it chains: `loadDefined` records
whether the optional `load` method exists and `loadResult` its
settlement; `pkAfterLoad` is the value of `this.instancePk` when the
first `.then` runs (it may have been mutated while `load()` was
pending); `loadInstanceResult pk` is the settlement of
`this.loadInstance(pk)`. The net effect on `loading` (set to `true`,
then back to `false` in `finally`) shows in the final state. -/
def refresh (s : ModelFormData) (loadDefined : Bool)
    (loadResult : Except String Unit) (pkAfterLoad : Option PKValue)
    (loadInstanceResult : PKValue → Except String Int) : RefreshOutcome :=
  if pkAbsent s.instancePk then
    ⟨s, false, false, false⟩
  else
    match (if loadDefined then loadResult else Except.ok ()) with
    | .error e =>
      ⟨{ s with loading := false, error := some (parseAPIResponseError e) },
        loadDefined, false, true⟩
    | .ok _ =>
      match pkAfterLoad with
      | none =>
        ⟨{ s with
            loading := false
            instancePk := none
            instanceVal := none },
          loadDefined, false, true⟩
      | some pk =>
        if pkAbsent (some pk) then
          ⟨{ s with
              loading := false
              instancePk := some pk
              instanceVal := none },
            loadDefined, false, true⟩
        else
          match loadInstanceResult pk with
          | .error e =>
            ⟨{ s with
                loading := false
                instancePk := some pk
                error := some (parseAPIResponseError e) },
              loadDefined, true, true⟩
          | .ok v =>
            ⟨{ s with
                loading := false
                instancePk := some pk
                instanceVal := some v },
              loadDefined, true, true⟩

/-- The shape of `ModelForm.renderError`'s output. -/
inductive ErrorView where
  /-- `nothing` (no error present). -/
  | empty
  /-- The `ak-empty-state` block with the message span and the error
  detail div. -/
  | errorState (message : String) (detail : String)
deriving DecidableEq, Repr

/-- `ModelForm.renderError` (`ModelForm.ts` lines 337-344): `nothing`
when no error is stored, otherwise the "Failed to fetch model." message
together with the plucked error detail. -/
def renderError (s : ModelFormData) : ErrorView :=
  match s.error with
  | none => .empty
  | some e => .errorState "Failed to fetch model." (pluckErrorDetail e)

/-- The visibility facet of a `ModelForm`, carrying the
intersection-observed `visible` property read by the `hidden` and
`ariaHidden` getters. -/
structure ModelFormVisibility where
  visible : Bool
deriving DecidableEq, Repr

/-- The `hidden` getter (`ModelForm.ts` lines 241-243):
`return !this.visible`. -/
def hiddenGetter (m : ModelFormVisibility) : Bool := !m.visible

/-- The `ariaHidden` getter (`ModelForm.ts` lines 245-247):
`return this.visible ? "false" : "true"`. -/
def ariaHiddenGetter (m : ModelFormVisibility) : String :=
  if m.visible then "false" else "true"

/-! ## themeImage: theme-aware image path resolution -/

/-- The characters of the substitution token `"%(theme)s"`. -/
def themePat : List Char := ['%', '(', 't', 'h', 'e', 'm', 'e', ')', 's']

/-- `rootInterface<AKElement>()?.activeTheme || resolveUITheme()`: the
root interface's `activeTheme` when present and truthy (non-empty),
otherwise the resolved UI theme (`||` also falls back on the empty
string). -/
def enabledTheme (activeTheme : Option String)
    (resolvedUITheme : String) : String :=
  match activeTheme with
  | none => resolvedUITheme
  | some t => if t = "" then resolvedUITheme else t

/-- JS `String.prototype.replaceAll` with the fixed string pattern
`"%(theme)s"` over character lists: left-to-right, non-overlapping; on a
match the replacement is emitted (and not rescanned) and scanning
resumes after the matched token. -/
def replaceThemeAux (rep : List Char) : List Char → List Char
  | [] => []
  | c :: rest =>
    if themePat.isPrefixOf (c :: rest) then
      rep ++ replaceThemeAux rep ((c :: rest).drop themePat.length)
    else
      c :: replaceThemeAux rep rest
termination_by l => l.length
decreasing_by
  · simp [themePat]
    omega
  · simp

/-- `themeImage` (`src/unnamed/part_000` lines 362-366): replaces every
occurrence of `"%(theme)s"` in the raw path with the enabled theme. -/
def themeImage (activeTheme : Option String) (resolvedUITheme : String)
    (rawPath : String) : String :=
  ⟨replaceThemeAux (enabledTheme activeTheme resolvedUITheme).data
    rawPath.data⟩

/-- Whether a character list contains an occurrence of `"%(theme)s"`. -/
def containsThemePat : List Char → Bool
  | [] => false
  | c :: rest => themePat.isPrefixOf (c :: rest) || containsThemePat rest

/-- **C1.** In `ModalForm.#confirm`, validation always precedes
submission: whenever the slotted form's `reportValidity()` returns
`false`, `form.submit()` is never called, and both the `loading` and
`locked` flags are set to `false` before the operation returns. -/
theorem confirm_validation_precedes_submission
    (i : ConfirmInput) (s : ModalFormState)
    (hform : i.formFound = true) (hinvalid : i.reportValidityResult = false) :
    ConfirmAction.callSubmit ∉ confirmTrace i ∧
    ConfirmAction.setLoading false ∈ confirmTrace i ∧
    ConfirmAction.setLocked false ∈ confirmTrace i ∧
    (runConfirm i s).loading = false ∧ (runConfirm i s).locked = false := by
  obtain ⟨ff, rv, sr, ca⟩ := i
  obtain ⟨l, k, o⟩ := s
  simp only at hform hinvalid
  subst hform hinvalid
  revert sr ca l k o
  decide

/-- **C2.** In every run of `ModalForm.#confirm` in which validation
passes, `loading` and `locked` are both set to `true` before the submit
promise is awaited (indeed before `form.submit` is even called), and
both are set back to `false` once the submission settles, whether it
resolves or rejects; on rejection the error is rethrown after the flags
are cleared. -/
theorem confirm_flags_bracket_submission
    (i : ConfirmInput) (s : ModalFormState)
    (hform : i.formFound = true) (hvalid : i.reportValidityResult = true) :
    precedes (.setLoading true) .callSubmit (confirmTrace i) ∧
    precedes (.setLocked true) .callSubmit (confirmTrace i) ∧
    precedes (.setLoading true) (.submitSettled i.submitResolves)
      (confirmTrace i) ∧
    precedes (.setLocked true) (.submitSettled i.submitResolves)
      (confirmTrace i) ∧
    precedes (.submitSettled i.submitResolves) (.setLoading false)
      (confirmTrace i) ∧
    precedes (.submitSettled i.submitResolves) (.setLocked false)
      (confirmTrace i) ∧
    (runConfirm i s).loading = false ∧ (runConfirm i s).locked = false ∧
    (i.submitResolves = false →
      ConfirmAction.rethrowError ∈ confirmTrace i ∧
      precedes (.setLoading false) .rethrowError (confirmTrace i) ∧
      precedes (.setLocked false) .rethrowError (confirmTrace i)) := by
  obtain ⟨ff, rv, sr, ca⟩ := i
  obtain ⟨l, k, o⟩ := s
  simp only at hform hvalid
  subst hform hvalid
  revert sr ca l k o
  decide

/-- Witness for C2 at a concrete invocation (a rejected submission). -/
theorem confirm_flags_bracket_submission_witness :
    precedes (.setLoading true) .callSubmit
      (confirmTrace ⟨true, true, false, true⟩) ∧
    precedes (.setLocked true) .callSubmit
      (confirmTrace ⟨true, true, false, true⟩) ∧
    precedes (.setLoading true) (.submitSettled false)
      (confirmTrace ⟨true, true, false, true⟩) ∧
    precedes (.setLocked true) (.submitSettled false)
      (confirmTrace ⟨true, true, false, true⟩) ∧
    precedes (.submitSettled false) (.setLoading false)
      (confirmTrace ⟨true, true, false, true⟩) ∧
    precedes (.submitSettled false) (.setLocked false)
      (confirmTrace ⟨true, true, false, true⟩) ∧
    (runConfirm ⟨true, true, false, true⟩ ⟨false, false, true⟩).loading
      = false ∧
    (runConfirm ⟨true, true, false, true⟩ ⟨false, false, true⟩).locked
      = false ∧
    (false = false →
      ConfirmAction.rethrowError ∈ confirmTrace ⟨true, true, false, true⟩ ∧
      precedes (.setLoading false) .rethrowError
        (confirmTrace ⟨true, true, false, true⟩) ∧
      precedes (.setLocked false) .rethrowError
        (confirmTrace ⟨true, true, false, true⟩)) :=
  confirm_flags_bracket_submission ⟨true, true, false, true⟩
    ⟨false, false, true⟩ rfl rfl

/-- **C3.** `ModalForm` dispatches the refresh event (bubbling and
composed) exactly when the submission resolves successfully and
`closeAfterSuccessfulSubmit` is `true`; in that case the modal is closed
and the form reset before the event is dispatched; and no refresh event
of any kind is dispatched on validation failure or rejected
submission. -/
theorem confirm_refresh_dispatch (i : ConfirmInput) :
    (ConfirmAction.dispatchRefreshEvent true true ∈ confirmTrace i ↔
      i.formFound = true ∧ i.reportValidityResult = true ∧
      i.submitResolves = true ∧ i.closeAfterSuccessfulSubmit = true) ∧
    (ConfirmAction.dispatchRefreshEvent true true ∈ confirmTrace i →
      precedes (.submitSettled true) (.dispatchRefreshEvent true true)
        (confirmTrace i) ∧
      precedes (.setOpen false) (.dispatchRefreshEvent true true)
        (confirmTrace i) ∧
      precedes .resetForm (.dispatchRefreshEvent true true)
        (confirmTrace i)) ∧
    (∀ b c : Bool, (b && c) = false →
      ConfirmAction.dispatchRefreshEvent b c ∉ confirmTrace i) := by
  obtain ⟨ff, rv, sr, ca⟩ := i
  revert ff rv sr ca
  decide

/-- Witness for C3 at a concrete invocation (successful submission with
`closeAfterSuccessfulSubmit` set). -/
theorem confirm_refresh_dispatch_witness :
    ConfirmAction.dispatchRefreshEvent true true
      ∈ confirmTrace ⟨true, true, true, true⟩ ∧
    precedes (.setOpen false) (.dispatchRefreshEvent true true)
      (confirmTrace ⟨true, true, true, true⟩) := by
  have h := confirm_refresh_dispatch ⟨true, true, true, true⟩
  have hmem : ConfirmAction.dispatchRefreshEvent true true
      ∈ confirmTrace ⟨true, true, true, true⟩ :=
    h.1.mpr ⟨rfl, rfl, rfl, rfl⟩
  exact ⟨hmem, (h.2.1 hmem).2.1⟩

/-- Witness for C1 at a concrete invocation. -/
theorem confirm_validation_precedes_submission_witness :
    ConfirmAction.callSubmit ∉ confirmTrace ⟨true, false, true, true⟩ ∧
    ConfirmAction.setLoading false ∈ confirmTrace ⟨true, false, true, true⟩ ∧
    ConfirmAction.setLocked false ∈ confirmTrace ⟨true, false, true, true⟩ ∧
    (runConfirm ⟨true, false, true, true⟩ ⟨true, true, true⟩).loading = false ∧
    (runConfirm ⟨true, false, true, true⟩ ⟨true, true, true⟩).locked = false :=
  confirm_validation_precedes_submission ⟨true, false, true, true⟩
    ⟨true, true, true⟩ rfl rfl

/-- **C4.** `AKTimestamp.startInterval` first clears any existing
interval; it installs no interval when the timestamp is `null`,
`refresh` is `false`, the document is not visible, or the element is
not visible; otherwise it installs a 1-second (1000 ms) interval when
the current time is within 60000 ms of the timestamp's time (inclusive
on both ends) and a 60-second (`1000 * 60` ms) interval otherwise. -/
theorem startInterval_debounce (el : TimestampElement) (now : Int) :
    (startInterval el now).head? = some TimerAction.clearInterval ∧
    ((el.timestamp = none ∨ el.refresh = false ∨
        el.docVisibilityVisible = false ∨ el.elementVisible = false) →
      startInterval el now = [TimerAction.clearInterval]) ∧
    (∀ moment : Int, el.timestamp = some moment → el.refresh = true →
      el.docVisibilityVisible = true → el.elementVisible = true →
      (moment - 60000 ≤ now ∧ now ≤ moment + 60000 →
        startInterval el now =
          [TimerAction.clearInterval, TimerAction.setIntervalMs 1000]) ∧
      ((now < moment - 60000 ∨ moment + 60000 < now) →
        startInterval el now =
          [TimerAction.clearInterval,
            TimerAction.setIntervalMs (1000 * 60)])) := by
  obtain ⟨ts, r, dv, v⟩ := el
  refine ⟨by simp [startInterval], ?_, ?_⟩
  · intro h
    simp only [startInterval]
    rw [if_pos h]
  · intro moment hts hr hdv hv
    simp only at hts hr hdv hv
    subst hts hr hdv hv
    constructor
    · intro hin
      simp only [startInterval]
      rw [if_neg (by simp), if_pos hin]
    · intro hout
      simp only [startInterval]
      rw [if_neg (by simp), if_neg (by omega)]

/-- Witness for C4 at a concrete element and clock: a visible,
refreshing element whose timestamp is within the 60-second window. -/
theorem startInterval_debounce_witness :
    startInterval ⟨some 0, true, true, true⟩ 1000 =
      [TimerAction.clearInterval, TimerAction.setIntervalMs 1000] :=
  (startInterval_debounce ⟨some 0, true, true, true⟩ 1000).2.2 0
    rfl rfl rfl rfl |>.1 (by constructor <;> decide)

/-- **C10.** Assigning any falsy value (`null`, `0`, the empty string)
to `AKTimestamp`'s `timestamp` setter stores `null`, and `render`
produces the `-` placeholder with aria-label `"None"` exactly when the
stored timestamp is `null` or its time is `0`; consequently the epoch
instant can never be rendered as a `<time>` view. -/
theorem timestamp_falsy_and_epoch_placeholder (parse : String → Int) :
    setTimestamp parse .nullValue = none ∧
    setTimestamp parse (.numValue 0) = none ∧
    setTimestamp parse (.strValue "") = none ∧
    (∀ (ts : Option Int) (e d : Bool),
      renderTimestamp ts e d = .placeholder "None" "-" ↔
        ts = none ∨ ts = some 0) ∧
    (∀ (ts : Option Int) (e d : Bool) (ms : Int) (se sd : Bool),
      renderTimestamp ts e d = .timeView ms se sd → ms ≠ 0) := by
  refine ⟨rfl, by simp [setTimestamp], by simp [setTimestamp], ?_, ?_⟩
  · intro ts e d
    cases ts with
    | none => simp [renderTimestamp]
    | some t =>
      by_cases ht : t = 0 <;> simp [renderTimestamp, ht]
  · intro ts e d ms se sd h
    cases ts with
    | none => simp [renderTimestamp] at h
    | some t =>
      by_cases ht : t = 0
      · simp [renderTimestamp, ht] at h
      · simp [renderTimestamp, ht] at h
        omega

/-- Witness for C10 at concrete inputs: the epoch `Date` renders as the
placeholder, not as a time. -/
theorem timestamp_falsy_and_epoch_placeholder_witness :
    setTimestamp (fun _ => 1) .nullValue = none ∧
    renderTimestamp (some 0) true true =
      TimestampView.placeholder "None" "-" ∧
    (5 : Int) ≠ 0 := by
  have h := timestamp_falsy_and_epoch_placeholder (fun _ => 1)
  exact ⟨h.1, (h.2.2.2.1 (some 0) true true).mpr (Or.inr rfl),
    h.2.2.2.2 (some 5) true true 5 true true rfl⟩

/-- Unfolding equation of `replaceThemeAux` at a cons cell. -/
theorem replaceThemeAux_cons (rep : List Char) (c : Char) (rest : List Char) :
    replaceThemeAux rep (c :: rest) =
      if themePat.isPrefixOf (c :: rest) then
        rep ++ replaceThemeAux rep ((c :: rest).drop themePat.length)
      else
        c :: replaceThemeAux rep rest := by
  rw [replaceThemeAux]

/-- A character list with no occurrence of `"%(theme)s"` is returned
unchanged by the replacement scan. -/
theorem replaceThemeAux_of_not_contains (rep : List Char) (l : List Char)
    (h : containsThemePat l = false) : replaceThemeAux rep l = l := by
  induction l with
  | nil => rw [replaceThemeAux]
  | cons c rest ih =>
    simp only [containsThemePat, Bool.or_eq_false_iff] at h
    rw [replaceThemeAux_cons, if_neg (by simp [h.1]), ih h.2]

/-- At an occurrence of `"%(theme)s"`, the scan emits the replacement
and resumes after the token. -/
theorem replaceThemeAux_head (rep b : List Char) :
    replaceThemeAux rep (themePat ++ b) = rep ++ replaceThemeAux rep b := by
  have hpre : themePat.isPrefixOf (themePat ++ b) = true := by
    rw [List.isPrefixOf_iff_prefix]
    exact List.prefix_append _ _
  have hdrop : (themePat ++ b).drop themePat.length = b := List.drop_left _ _
  have hcons : themePat ++ b
      = '%' :: ('(' :: 't' :: 'h' :: 'e' :: 'm' :: 'e' :: ')' :: 's' :: b) :=
    rfl
  rw [hcons] at hpre hdrop ⊢
  rw [replaceThemeAux_cons, if_pos hpre, hdrop]

/-- **C7.** `themeImage` returns the path with every occurrence of the
substring `"%(theme)s"` replaced by the active theme name (the root
interface's `activeTheme`, falling back to the resolved UI theme),
leaving all other characters unchanged: the scan is the identity on
occurrence-free paths, rewrites each occurrence to the theme name and
resumes after it, and copies any non-occurrence character verbatim. -/
theorem themeImage_replaces_theme_token (activeTheme : Option String)
    (resolvedUITheme : String) :
    (∀ rawPath : String, containsThemePat rawPath.data = false →
      themeImage activeTheme resolvedUITheme rawPath = rawPath) ∧
    (∀ b : List Char,
      replaceThemeAux (enabledTheme activeTheme resolvedUITheme).data
          (themePat ++ b) =
        (enabledTheme activeTheme resolvedUITheme).data ++
          replaceThemeAux (enabledTheme activeTheme resolvedUITheme).data
            b) ∧
    (∀ (c : Char) (rest : List Char),
      themePat.isPrefixOf (c :: rest) = false →
      replaceThemeAux (enabledTheme activeTheme resolvedUITheme).data
          (c :: rest) =
        c :: replaceThemeAux (enabledTheme activeTheme resolvedUITheme).data
          rest) ∧
    ((activeTheme = none ∨ activeTheme = some "") →
      enabledTheme activeTheme resolvedUITheme = resolvedUITheme) ∧
    (∀ t : String, activeTheme = some t → t ≠ "" →
      enabledTheme activeTheme resolvedUITheme = t) := by
  refine ⟨?_, replaceThemeAux_head _, ?_, ?_, ?_⟩
  · intro p hp
    obtain ⟨d⟩ := p
    exact congrArg String.mk (replaceThemeAux_of_not_contains _ _ hp)
  · intro c rest h
    rw [replaceThemeAux_cons, if_neg (by simp [h])]
  · rintro (rfl | rfl) <;> simp [enabledTheme]
  · rintro t rfl ht
    simp [enabledTheme, ht]

/-- Witness for C7 at concrete inputs: an occurrence-free path is
unmodified, and a set active theme is the enabled theme. -/
theorem themeImage_replaces_theme_token_witness :
    themeImage (some "dark") "light" "/static/logo.png"
      = "/static/logo.png" ∧
    enabledTheme (some "dark") "light" = "dark" := by
  have h := themeImage_replaces_theme_token (some "dark") "light"
  exact ⟨h.1 "/static/logo.png" (by decide),
    h.2.2.2.2 "dark" rfl (by decide)⟩

/-- **C5.** For an element decorated with `intersectionObserver`, the
decorated property is initialized to `false` when the element connects;
each observer callback rewrites the property, invokes the custom
`onIntersection` callback (when one is provided) and requests a
re-render exactly when the reported `isIntersecting` differs from the
current value, and leaves property, callback and update request
untouched when it is equal. -/
theorem intersectionObserver_change_detection
    (e : DecoratedElement) (hasCb once cur isI : Bool) :
    (connectedCallbackInit e).value = false ∧
    (cur ≠ isI →
      intersectionCallbackStep hasCb once cur isI =
        ⟨isI, true, hasCb, true, once && isI⟩) ∧
    (cur = isI →
      intersectionCallbackStep hasCb once cur isI =
        ⟨cur, false, false, false, once && isI⟩) := by
  obtain ⟨v⟩ := e
  revert hasCb once cur isI v
  decide

/-- Witness for C5 at a concrete element and entry (a change from
`false` to `true` with a callback provided and `once` off). -/
theorem intersectionObserver_change_detection_witness :
    (connectedCallbackInit ⟨true⟩).value = false ∧
    intersectionCallbackStep true false false true =
      ⟨true, true, true, true, false⟩ := by
  have h := intersectionObserver_change_detection ⟨true⟩ true false false true
  exact ⟨h.1, h.2.1 (by decide)⟩

/-- Whenever the primary-key guard passes, `#refresh`'s `finally` block
runs: `loading` ends `false` and `requestUpdate()` is called. -/
theorem refresh_settles (s : ModelFormData) (ld : Bool)
    (lr : Except String Unit) (pka : Option PKValue)
    (lir : PKValue → Except String Int)
    (h : pkAbsent s.instancePk = false) :
    (refresh s ld lr pka lir).state.loading = false ∧
    (refresh s ld lr pka lir).requestedUpdate = true := by
  unfold refresh
  rw [if_neg (by simp [h])]
  split
  · exact ⟨rfl, rfl⟩
  · split
    · exact ⟨rfl, rfl⟩
    · split
      · exact ⟨rfl, rfl⟩
      · split <;> exact ⟨rfl, rfl⟩

/-- When the guard passes but the re-checked primary key is absent after
`load()` resolves, the instance is set to `null` and `loadInstance` is
not called. -/
theorem refresh_recheck (s : ModelFormData) (ld : Bool)
    (lr : Except String Unit) (pka : Option PKValue)
    (lir : PKValue → Except String Int)
    (h : pkAbsent s.instancePk = false)
    (hok : (if ld then lr else Except.ok ()) = .ok ())
    (hpa : pkAbsent pka = true) :
    (refresh s ld lr pka lir).state.instanceVal = none ∧
    (refresh s ld lr pka lir).calledLoadInstance = false := by
  unfold refresh
  rw [if_neg (by simp [h])]
  simp only [hok]
  cases pka with
  | none => exact ⟨rfl, rfl⟩
  | some pk => simp [hpa]

/-- **C6.** When `ModelForm.#refresh` fails (`load()` or
`loadInstance(pk)` rejects), the rejection is parsed via
`parseAPIResponseError`, stored in the `error` state, and surfaced by
`renderError` as the "Failed to fetch model." message plus the plucked
error detail; and in every case, success or failure, of the load
sequence the `loading` flag is back to `false` after the refresh
settles. -/
theorem modelForm_refresh_error_handling (s : ModelFormData) (ld : Bool)
    (lr : Except String Unit) (pka : Option PKValue)
    (lir : PKValue → Except String Int)
    (hpk : pkAbsent s.instancePk = false) :
    (refresh s ld lr pka lir).state.loading = false ∧
    (refresh s ld lr pka lir).requestedUpdate = true ∧
    (∀ e : String, ld = true → lr = .error e →
      (refresh s ld lr pka lir).state.error
          = some (parseAPIResponseError e) ∧
      renderError (refresh s ld lr pka lir).state
          = .errorState "Failed to fetch model."
              (pluckErrorDetail (parseAPIResponseError e))) ∧
    (∀ (pk : PKValue) (e : String),
      (if ld then lr else Except.ok ()) = .ok () →
      pka = some pk → pkAbsent (some pk) = false →
      lir pk = .error e →
      (refresh s ld lr pka lir).calledLoadInstance = true ∧
      (refresh s ld lr pka lir).state.error
          = some (parseAPIResponseError e) ∧
      renderError (refresh s ld lr pka lir).state
          = .errorState "Failed to fetch model."
              (pluckErrorDetail (parseAPIResponseError e))) := by
  refine ⟨(refresh_settles s ld lr pka lir hpk).1,
    (refresh_settles s ld lr pka lir hpk).2, ?_, ?_⟩
  · intro e hld hlr
    subst hld hlr
    unfold refresh
    rw [if_neg (by simp [hpk])]
    exact ⟨rfl, rfl⟩
  · intro pk e hok hpka hpkp hli
    subst hpka
    unfold refresh
    rw [if_neg (by simp [hpk])]
    simp only [hok]
    simp [hpkp, hli, renderError]

/-- Witness for C6 at a concrete run: a defined `load()` that rejects
with `"boom"`. -/
theorem modelForm_refresh_error_handling_witness :
    (refresh ⟨some (.numPk 1), none, none, false⟩ true (.error "boom")
        (some (.numPk 1)) (fun _ => .ok 0)).state.loading = false ∧
    (refresh ⟨some (.numPk 1), none, none, false⟩ true (.error "boom")
        (some (.numPk 1)) (fun _ => .ok 0)).state.error
      = some (parseAPIResponseError "boom") ∧
    renderError (refresh ⟨some (.numPk 1), none, none, false⟩ true
        (.error "boom") (some (.numPk 1)) (fun _ => .ok 0)).state
      = .errorState "Failed to fetch model."
          (pluckErrorDetail (parseAPIResponseError "boom")) := by
  have h := modelForm_refresh_error_handling ⟨some (.numPk 1), none, none,
    false⟩ true (.error "boom") (some (.numPk 1)) (fun _ => .ok 0) rfl
  exact ⟨h.1, (h.2.2.1 "boom" rfl rfl).1, (h.2.2.1 "boom" rfl rfl).2⟩

/-- **C8.** For every `ModelForm` state, the `hidden` getter is exactly
the negation of `visible`, and the `ariaHidden` getter is `"true"`
exactly when `hidden` is `true` and `"false"` exactly when `visible` is
`true`. -/
theorem modelForm_hidden_aria_invariant (m : ModelFormVisibility) :
    hiddenGetter m = !m.visible ∧
    (ariaHiddenGetter m = "true" ↔ hiddenGetter m = true) ∧
    (ariaHiddenGetter m = "false" ↔ m.visible = true) := by
  obtain ⟨v⟩ := m
  revert v
  decide

/-- **C9.** `ModelForm.#refresh` resolves immediately, leaving
`loading`, `instance` and `error` unchanged, whenever `instancePk` is
falsy and not of number type (`null`/`undefined` or the empty string); a
numeric primary key of `0` is treated as present and triggers the load
sequence; and the guard is re-checked after `load()` completes, so a
primary key cleared during `load()` results in the instance being set to
`null` rather than `loadInstance` being called. -/
theorem modelForm_refresh_pk_guard (s : ModelFormData) (ld : Bool)
    (lr : Except String Unit) (pka : Option PKValue)
    (lir : PKValue → Except String Int) :
    (pkAbsent s.instancePk = true →
      refresh s ld lr pka lir = ⟨s, false, false, false⟩) ∧
    pkAbsent none = true ∧
    pkAbsent (some (.strPk "")) = true ∧
    pkAbsent (some (.numPk 0)) = false ∧
    (s.instancePk = some (.numPk 0) →
      (refresh s ld lr pka lir).requestedUpdate = true) ∧
    (pkAbsent s.instancePk = false →
      (if ld then lr else Except.ok ()) = .ok () →
      pkAbsent pka = true →
      (refresh s ld lr pka lir).state.instanceVal = none ∧
      (refresh s ld lr pka lir).calledLoadInstance = false) := by
  refine ⟨?_, rfl, rfl, rfl, ?_, ?_⟩
  · intro h
    unfold refresh
    rw [if_pos (by simp [h])]
  · intro h
    exact (refresh_settles s ld lr pka lir (by simp [h, pkAbsent])).2
  · intro h hok hpa
    exact refresh_recheck s ld lr pka lir h hok hpa

/-- Witness for C9 at concrete runs: an absent primary key (the empty
string) short-circuits, and a key cleared during `load()` yields a
`null` instance without calling `loadInstance`. -/
theorem modelForm_refresh_pk_guard_witness :
    refresh ⟨some (.strPk ""), some 7, none, true⟩ true (.ok ()) none
        (fun _ => .ok 3)
      = ⟨⟨some (.strPk ""), some 7, none, true⟩, false, false, false⟩ ∧
    (refresh ⟨some (.numPk 0), none, none, false⟩ false (.ok ()) none
        (fun _ => .ok 3)).requestedUpdate = true ∧
    (refresh ⟨some (.numPk 1), none, none, false⟩ false (.ok ()) none
        (fun _ => .ok 3)).state.instanceVal = none ∧
    (refresh ⟨some (.numPk 1), none, none, false⟩ false (.ok ()) none
        (fun _ => .ok 3)).calledLoadInstance = false := by
  have h1 := modelForm_refresh_pk_guard ⟨some (.strPk ""), some 7, none,
    true⟩ true (.ok ()) none (fun _ => .ok 3)
  have h2 := modelForm_refresh_pk_guard ⟨some (.numPk 0), none, none,
    false⟩ false (.ok ()) none (fun _ => .ok 3)
  have h3 := modelForm_refresh_pk_guard ⟨some (.numPk 1), none, none,
    false⟩ false (.ok ()) none (fun _ => .ok 3)
  exact ⟨h1.1 rfl, h2.2.2.2.2.1 rfl, (h3.2.2.2.2.2 rfl rfl rfl).1,
    (h3.2.2.2.2.2 rfl rfl rfl).2⟩
